import Mathlib

/-!
Verification development for the query-history service
(`pkg/services/queryhistory/database.go`) and the dashboard-panel
validator of this repository.

The relational store is modelled as an explicit state (`Db`): lists of
`query_history` and `query_history_star` rows.  Each repository operation
is a function from a `Db` (plus the signed-in user and arguments) to the
updated `Db` paired with an `Except` result; a transaction that fails is
modelled by returning the original `Db` (rollback).  The store dialect's
case-insensitive substring operator is kept abstract as a boolean
function argument `like`.  For the two operations whose control flow
around raw session outcomes matters (`deleteQuery`, `unstarQuery`) we
additionally embed the function bodies over the raw session-call results
(`deleteQueryCore`, `unstarQueryCore`), so that injected store failures
can be reasoned about.
-/

/-- A `query_history` row (struct `QueryHistory` in the source). -/
structure QueryHistory where
  id : Int
  orgID : Int
  uid : String
  datasourceUID : String
  createdBy : Int
  createdAt : Int
  comment : String
  queries : String
deriving DecidableEq

/-- A `query_history_star` row (struct `QueryHistoryStar` in the source). -/
structure QueryHistoryStar where
  userID : Int
  queryUID : String
deriving DecidableEq

/-- The projection returned to callers (struct `QueryHistoryDTO`). -/
structure QueryHistoryDTO where
  uid : String
  datasourceUID : String
  createdBy : Int
  createdAt : Int
  comment : String
  queries : String
  starred : Bool
deriving DecidableEq

/-- The signed-in user (fields `OrgId`, `UserId` of `models.SignedInUser`). -/
structure SignedInUser where
  orgId : Int
  userId : Int
deriving DecidableEq

/-- The relational store state: the two tables owned by the service. -/
structure Db where
  queryHistory : List QueryHistory
  stars : List QueryHistoryStar
deriving DecidableEq

/-- Error taxonomy of the service; `store e` stands for an opaque
infrastructure error surfaced by the session (error code `e`). -/
inductive QhError where
  | invalidArgument
  | queryNotFound
  | queryAlreadyStarred
  | starredQueryNotFound
  | store (e : Nat)
deriving DecidableEq

/-- The DTO literal built at the end of `starQuery` / `unstarQuery` /
`patchQueryComment` in the source. -/
def toDTO (qh : QueryHistory) (starred : Bool) : QueryHistoryDTO :=
  { uid := qh.uid
    datasourceUID := qh.datasourceUID
    createdBy := qh.createdBy
    createdAt := qh.createdAt
    comment := qh.comment
    queries := qh.queries
    starred := starred }

/-- `session.Where("org_id = ? AND created_by = ? AND uid = ?", ...).Get(...)`:
the first `query_history` row matching the caller's scope and the uid. -/
def findQueryRow (db : Db) (user : SignedInUser) (uid : String) :
    Option QueryHistory :=
  db.queryHistory.find? fun r =>
    r.orgID == user.orgId && r.createdBy == user.userId && r.uid == uid

/-- `session.Table("query_history_star").Where("user_id = ? AND query_uid = ?", ...).Exist()`. -/
def starExists (db : Db) (userId : Int) (uid : String) : Bool :=
  db.stars.any fun s => s.userID == userId && s.queryUID == uid

/-- Number of star rows matching `user_id = ? AND query_uid = ?`
(the affected-row count of the star delete). -/
def starRowCount (db : Db) (userId : Int) (uid : String) : Nat :=
  db.stars.countP fun s => s.userID == userId && s.queryUID == uid

/-- The star table after `DELETE FROM query_history_star WHERE user_id = ? AND query_uid = ?`. -/
def deleteStarRows (stars : List QueryHistoryStar) (userId : Int) (uid : String) :
    List QueryHistoryStar :=
  stars.filter fun s => !(s.userID == userId && s.queryUID == uid)

/-- Number of `query_history` rows matching `org_id = ? AND created_by = ? AND uid = ?`
(the affected-row count of the query delete). -/
def queryRowCount (db : Db) (user : SignedInUser) (uid : String) : Nat :=
  db.queryHistory.countP fun r =>
    r.orgID == user.orgId && r.createdBy == user.userId && r.uid == uid

/-- `searchQueries` filter (struct `SearchInQueryHistoryQuery`). -/
structure SearchInQueryHistoryQuery where
  datasourceUIDs : List String
  searchString : String
  onlyStarred : Bool
  sort : String
  page : Int
  limit : Int

/-- The `WHERE` clause of the search statement: org scope, user scope,
dialect substring match on the serialized queries, datasource membership. -/
def rowMatches (like : String → String → Bool) (user : SignedInUser)
    (q : SearchInQueryHistoryQuery) (r : QueryHistory) : Bool :=
  r.orgID == user.orgId && r.createdBy == user.userId &&
    like r.queries q.searchString && q.datasourceUIDs.contains r.datasourceUID

/-- The star rows a join `ON query_history_star.query_uid = query_history.uid`
pairs with a given query row: the match is on the query uid only. -/
def starsFor (db : Db) (uid : String) : List QueryHistoryStar :=
  db.stars.filter fun s => s.queryUID == uid

/-- Rows produced by the `FROM ... JOIN` of the search statement, before
ordering and pagination.  `OnlyStarred` selects an `INNER JOIN` with the
`starred` column forced to the true literal; otherwise a `LEFT JOIN` with
`starred` computed from whether the join matched. -/
def joinedRows (like : String → String → Bool) (db : Db) (user : SignedInUser)
    (q : SearchInQueryHistoryQuery) : List QueryHistoryDTO :=
  if q.onlyStarred then
    (db.queryHistory.filter (rowMatches like user q)).flatMap fun r =>
      (starsFor db r.uid).map fun _ => toDTO r true
  else
    (db.queryHistory.filter (rowMatches like user q)).flatMap fun r =>
      if (starsFor db r.uid).isEmpty then [toDTO r false]
      else (starsFor db r.uid).map fun _ => toDTO r true

/-- Ascending comparison on `created_at` (`ORDER BY created_at ASC`). -/
def createdAtAsc (a b : QueryHistoryDTO) : Prop :=
  a.createdAt ≤ b.createdAt

/-- Descending comparison on `created_at` (`ORDER BY created_at DESC`). -/
def createdAtDesc (a b : QueryHistoryDTO) : Prop :=
  b.createdAt ≤ a.createdAt

instance : DecidableRel createdAtAsc := fun a b =>
  inferInstanceAs (Decidable (a.createdAt ≤ b.createdAt))

instance : DecidableRel createdAtDesc := fun a b =>
  inferInstanceAs (Decidable (b.createdAt ≤ a.createdAt))

instance : IsTotal QueryHistoryDTO createdAtAsc :=
  ⟨fun a b => Int.le_total a.createdAt b.createdAt⟩

instance : IsTotal QueryHistoryDTO createdAtDesc :=
  ⟨fun a b => Int.le_total b.createdAt a.createdAt⟩

instance : IsTrans QueryHistoryDTO createdAtAsc :=
  ⟨fun _ _ _ h1 h2 => le_trans h1 h2⟩

instance : IsTrans QueryHistoryDTO createdAtDesc :=
  ⟨fun _ _ _ h1 h2 => le_trans h2 h1⟩

/-- The `ORDER BY created_at` step of the search statement. -/
def sortRows (sort : String) (l : List QueryHistoryDTO) : List QueryHistoryDTO :=
  if sort = "time-asc" then l.insertionSort createdAtAsc
  else l.insertionSort createdAtDesc

/-- The fully joined, filtered and ordered result of the search statement,
before `LIMIT`/`OFFSET`. -/
def sortedResult (like : String → String → Bool) (db : Db) (user : SignedInUser)
    (q : SearchInQueryHistoryQuery) : List QueryHistoryDTO :=
  sortRows (if q.sort = "" then "time-desc" else q.sort) (joinedRows like db user q)

/-- `searchQueries`: reject an empty datasource set, normalize paging
defaults (`Page := 1` when `≤ 0`, `Limit := 100` when `≤ 0`, `Sort :=
"time-desc"` when empty), then run the search statement with
`LIMIT = Limit` and `OFFSET = Limit * (Page - 1)`. -/
def searchQueries (like : String → String → Bool) (db : Db) (user : SignedInUser)
    (q : SearchInQueryHistoryQuery) : Except QhError (List QueryHistoryDTO) :=
  if q.datasourceUIDs.isEmpty then .error .invalidArgument
  else
    let page : Int := if q.page ≤ 0 then 1 else q.page
    let limit : Int := if q.limit ≤ 0 then 100 else q.limit
    let offset : Int := limit * (page - 1)
    .ok (((sortedResult like db user q).drop offset.toNat).take limit.toNat)

/-- `deleteQuery` against the honest store: inside one transaction, first
delete the caller's star rows for the uid (best effort), then delete the
query rows scoped to `(org_id, created_by, uid)`; if that affected zero
rows the transaction fails with `QueryNotFound` and rolls back. -/
def deleteQuery (db : Db) (user : SignedInUser) (uid : String) :
    Db × Except QhError Nat :=
  let starsAfter := deleteStarRows db.stars user.userId uid
  let n := queryRowCount db user uid
  if n = 0 then (db, .error .queryNotFound)
  else
    ({ queryHistory := db.queryHistory.filter fun r =>
         !(r.orgID == user.orgId && r.createdBy == user.userId && r.uid == uid)
       stars := starsAfter },
     .ok n)

/-- Raw session-call outcomes observed by `deleteQuery`: each delete
returns an affected-row count and an optional store error. -/
structure DeleteSessionOutcome where
  starDelete : Nat × Option Nat
  queryDelete : Nat × Option Nat

/-- The body of `deleteQuery` over raw session outcomes: the star-delete
outcome is only logged on error; the query-delete error aborts, and a
zero affected-row count yields `QueryNotFound`. -/
def deleteQueryCore (s : DeleteSessionOutcome) : Except QhError Nat :=
  match s.queryDelete with
  | (_, some e) => .error (.store e)
  | (n, none) => if n = 0 then .error .queryNotFound else .ok n

/-- Raw session-call outcomes observed by `unstarQuery`: the scoped `Get`
of the query row, then the star delete returning `(affected, error)`. -/
structure UnstarSessionOutcome where
  getQuery : Except Nat (Option QueryHistory)
  starDelete : Nat × Option Nat

/-- The body of `unstarQuery` over raw session outcomes, in source order:
propagate a `Get` error, `QueryNotFound` when the row is absent, then the
star delete — the source checks `id == 0` before checking `err`. -/
def unstarQueryCore (s : UnstarSessionOutcome) : Except QhError QueryHistoryDTO :=
  match s.getQuery with
  | .error e => .error (.store e)
  | .ok none => .error .queryNotFound
  | .ok (some qh) =>
    match s.starDelete with
    | (n, e) =>
      if n = 0 then .error .starredQueryNotFound
      else
        match e with
        | some err => .error (.store err)
        | none => .ok (toDTO qh false)

/-- `unstarQuery` against the honest store: verify the query row exists
(`QueryNotFound` otherwise), delete the star rows for `(user, uid)`,
fail with `StarredQueryNotFound` on zero affected rows (rolling back),
otherwise commit and return the DTO with `Starred = false`. -/
def unstarQuery (db : Db) (user : SignedInUser) (uid : String) :
    Db × Except QhError QueryHistoryDTO :=
  match findQueryRow db user uid with
  | none => (db, .error .queryNotFound)
  | some qh =>
    if starRowCount db user.userId uid = 0 then
      (db, .error .starredQueryNotFound)
    else
      ({ db with stars := deleteStarRows db.stars user.userId uid },
       .ok (toDTO qh false))

/-- `starQuery` against the honest store: verify the query row exists
(`QueryNotFound` otherwise), insert the star row — a uniqueness-constraint
violation (the pair already present) yields `QueryAlreadyStarred` — and
return the DTO with `Starred = true`. -/
def starQuery (db : Db) (user : SignedInUser) (uid : String) :
    Db × Except QhError QueryHistoryDTO :=
  match findQueryRow db user uid with
  | none => (db, .error .queryNotFound)
  | some qh =>
    if starExists db user.userId uid then
      (db, .error .queryAlreadyStarred)
    else
      ({ db with stars := db.stars ++ [{ userID := user.userId, queryUID := uid }] },
       .ok (toDTO qh true))

/-- `patchQueryComment`: fetch the row scoped to `(org_id, created_by, uid)`
(`QueryNotFound` when absent), overwrite its `Comment` and persist the row
by its internal id, recompute `Starred` from the star table, and return the
updated DTO. -/
def patchQueryComment (db : Db) (user : SignedInUser) (uid : String)
    (comment : String) : Db × Except QhError QueryHistoryDTO :=
  match findQueryRow db user uid with
  | none => (db, .error .queryNotFound)
  | some qh =>
    let updated := { qh with comment := comment }
    ({ db with queryHistory := db.queryHistory.map fun r =>
         if r.id == qh.id then updated else r },
     .ok (toDTO updated (starExists db user.userId uid)))

/-- Error taxonomy of the dashboard-panel validator; `storeFailure e`
stands for any other error surfaced by the dashboard fetch. -/
inductive DashboardError where
  | dashboardOrPanelIdentifierNotSet
  | dashboardNotFound
  | dashboardCorrupt
  | dashboardPanelNotFound
  | storeFailure (e : Nat)
deriving DecidableEq

/-- A panel entry of a dashboard document: an object carrying an integer id. -/
structure Panel where
  id : Int
deriving DecidableEq

/-- The dashboard content document, exposing its `panels` collection. -/
structure DashboardData where
  panels : List Panel
deriving DecidableEq

/-- A dashboard row; `data` is the content document, `none` when absent. -/
structure Dashboard where
  uid : String
  orgId : Int
  data : Option DashboardData
deriving DecidableEq

/-- Modelled from the spec: the implementation of `checkDashboardAndPanel`
is not among the provided sources (only its test is), so this follows
§4.2 of the specification: fail with `DashboardOrPanelIdentifierNotSet`
when `dashboardUID` is empty or `panelID ≤ 0`, before any store access;
fetch the dashboard, propagating the store's error unchanged; fail with
`DashboardCorrupt` when the content document is nil; fail with
`DashboardPanelNotFound` when no entry of the document's `panels` has an
`id` equal to `panelID`; otherwise succeed. -/
def checkDashboardAndPanel (getDashboard : Int → String → Except DashboardError Dashboard)
    (orgId : Int) (dashboardUid : String) (panelId : Int) : Option DashboardError :=
  if dashboardUid = "" ∨ panelId ≤ 0 then
    some .dashboardOrPanelIdentifierNotSet
  else
    match getDashboard orgId dashboardUid with
    | .error e => some e
    | .ok dash =>
      match dash.data with
      | none => some .dashboardCorrupt
      | some doc =>
        if doc.panels.any (fun p => p.id == panelId) then none
        else some .dashboardPanelNotFound

/-- A concrete dialect substring matcher usable in examples: plain
containment of the pattern in the content. -/
def likeContains (content pattern : String) : Bool :=
  decide (pattern.data <:+: content.data)

/-- Concrete query row used to instantiate the theorems. -/
def wQuery : QueryHistory :=
  { id := 1, orgID := 1, uid := "q1", datasourceUID := "ds1", createdBy := 7,
    createdAt := 100, comment := "", queries := "content A" }

/-- Concrete signed-in user owning `wQuery`. -/
def wUser : SignedInUser := { orgId := 1, userId := 7 }

/-- Concrete store with one query row and no stars. -/
def wDb : Db := { queryHistory := [wQuery], stars := [] }

/-- Concrete store where the caller has starred `wQuery`. -/
def wDbStarred : Db :=
  { queryHistory := [wQuery], stars := [{ userID := 7, queryUID := "q1" }] }

/-- Concrete store where a different user (id 8) has starred `wQuery`. -/
def wDbOtherStar : Db :=
  { queryHistory := [wQuery], stars := [{ userID := 8, queryUID := "q1" }] }

/-- Concrete search filter. -/
def wSearch : SearchInQueryHistoryQuery :=
  { datasourceUIDs := ["ds1"], searchString := "", onlyStarred := true,
    sort := "", page := 1, limit := 10 }

/-- A helper: the scoped row predicate used by `findQueryRow` holds as a
proposition exactly when its boolean form does. -/
theorem rowScope_eq_true (u : SignedInUser) (uid : String) (r : QueryHistory) :
    (r.orgID == u.orgId && r.createdBy == u.userId && r.uid == uid) = true ↔
      (r.orgID = u.orgId ∧ r.createdBy = u.userId ∧ r.uid = uid) := by
  simp [Bool.and_eq_true, and_assoc]

/-- A helper: absence of any scoped row makes `findQueryRow` return `none`. -/
theorem findQueryRow_eq_none (db : Db) (u : SignedInUser) (uid : String)
    (h : ∀ r ∈ db.queryHistory, ¬(r.orgID = u.orgId ∧ r.createdBy = u.userId ∧ r.uid = uid)) :
    findQueryRow db u uid = none := by
  rw [findQueryRow, List.find?_eq_none]
  intro r hr hp
  exact h r hr ((rowScope_eq_true u uid r).mp hp)

/-- A helper: `starExists` is false exactly when no star row matches. -/
theorem starExists_eq_false (db : Db) (userId : Int) (uid : String)
    (h : ∀ s ∈ db.stars, ¬(s.userID = userId ∧ s.queryUID = uid)) :
    starExists db userId uid = false := by
  rw [starExists, List.any_eq_false]
  intro s hs hp
  simp only [Bool.and_eq_true, beq_iff_eq] at hp
  exact h s hs hp

/-- A helper: a matching star row makes `starExists` true. -/
theorem starExists_eq_true (db : Db) (userId : Int) (uid : String)
    (h : ∃ s ∈ db.stars, s.userID = userId ∧ s.queryUID = uid) :
    starExists db userId uid = true := by
  rw [starExists, List.any_eq_true]
  obtain ⟨s, hs, h1, h2⟩ := h
  exact ⟨s, hs, by simp [h1, h2]⟩

/-- A helper: no matching star row means the star delete affects zero rows. -/
theorem starRowCount_eq_zero (db : Db) (userId : Int) (uid : String)
    (h : ∀ s ∈ db.stars, ¬(s.userID = userId ∧ s.queryUID = uid)) :
    starRowCount db userId uid = 0 := by
  rw [starRowCount, List.countP_eq_zero]
  intro s hs hp
  simp only [Bool.and_eq_true, beq_iff_eq] at hp
  exact h s hs hp

/-- C9: In `unstarQuery` the zero-rows-affected check comes before the
error check of the star delete: when the star delete reports an error
together with zero affected rows, the operation fails with
`StarredQueryNotFound` and the store error is not surfaced. -/
theorem unstarQueryCore_zero_rows_masks_store_error
    (qh : QueryHistory) (e : Nat) :
    unstarQueryCore ⟨.ok (some qh), (0, some e)⟩ = .error .starredQueryNotFound ∧
      unstarQueryCore ⟨.ok (some qh), (0, some e)⟩ ≠ .error (.store e) := by
  refine ⟨rfl, ?_⟩
  intro h
  simp [unstarQueryCore] at h

/-- C2: `starQuery` fails with `QueryNotFound` when no query row matches
`(OrgID, CreatedBy, UID)`; when the query exists and the star row for
`(user, uid)` is already present, the insert's uniqueness violation is
turned into `QueryAlreadyStarred`; when the insert succeeds the returned
DTO has `Starred = true`. -/
theorem starQuery_behavior (db : Db) (u : SignedInUser) (uid : String) :
    ((∀ r ∈ db.queryHistory,
        ¬(r.orgID = u.orgId ∧ r.createdBy = u.userId ∧ r.uid = uid)) →
      starQuery db u uid = (db, .error .queryNotFound)) ∧
    (∀ qh, findQueryRow db u uid = some qh →
      (∃ s ∈ db.stars, s.userID = u.userId ∧ s.queryUID = uid) →
      starQuery db u uid = (db, .error .queryAlreadyStarred)) ∧
    (∀ qh, findQueryRow db u uid = some qh →
      (∀ s ∈ db.stars, ¬(s.userID = u.userId ∧ s.queryUID = uid)) →
      ∃ db2, starQuery db u uid = (db2, .ok (toDTO qh true)) ∧
        (toDTO qh true).starred = true) := by
  refine ⟨?_, ?_, ?_⟩
  · intro h
    simp [starQuery, findQueryRow_eq_none db u uid h]
  · intro qh hfind hex
    simp [starQuery, hfind, starExists_eq_true db u.userId uid hex]
  · intro qh hfind hno
    refine ⟨{ db with stars := db.stars ++ [{ userID := u.userId, queryUID := uid }] }, ?_, rfl⟩
    simp [starQuery, hfind, starExists_eq_false db u.userId uid hno]

/-- Witness for C2: concrete runs of all three branches. -/
theorem starQuery_behavior_witness :
    starQuery wDb wUser "zz" = (wDb, .error .queryNotFound) ∧
    starQuery wDbStarred wUser "q1" = (wDbStarred, .error .queryAlreadyStarred) ∧
    ∃ db2, starQuery wDb wUser "q1" = (db2, .ok (toDTO wQuery true)) ∧
      (toDTO wQuery true).starred = true := by
  refine ⟨?_, ?_, ?_⟩
  · exact (starQuery_behavior wDb wUser "zz").1 (by decide)
  · exact (starQuery_behavior wDbStarred wUser "q1").2.1 wQuery (by decide)
      ⟨{ userID := 7, queryUID := "q1" }, by decide, by decide, by decide⟩
  · exact (starQuery_behavior wDb wUser "q1").2.2 wQuery (by decide) (by decide)

/-- C3: `checkDashboardAndPanel` applies its checks in a fixed order:
malformed identifiers fail with `DashboardOrPanelIdentifierNotSet` before
any store access (the result does not depend on the store); otherwise a
store not-found is propagated; a nil document fails with
`DashboardCorrupt`; a document without the panel id fails with
`DashboardPanelNotFound`; otherwise no error. -/
theorem checkDashboardAndPanel_policy
    (gd gd2 : Int → String → Except DashboardError Dashboard)
    (orgId : Int) (dashboardUid : String) (panelId : Int) :
    ((dashboardUid = "" ∨ panelId ≤ 0) →
        checkDashboardAndPanel gd orgId dashboardUid panelId =
          some .dashboardOrPanelIdentifierNotSet ∧
        checkDashboardAndPanel gd orgId dashboardUid panelId =
          checkDashboardAndPanel gd2 orgId dashboardUid panelId) ∧
    (dashboardUid ≠ "" → 0 < panelId →
      ((gd orgId dashboardUid = .error .dashboardNotFound →
          checkDashboardAndPanel gd orgId dashboardUid panelId =
            some .dashboardNotFound) ∧
       (∀ dash, gd orgId dashboardUid = .ok dash → dash.data = none →
          checkDashboardAndPanel gd orgId dashboardUid panelId =
            some .dashboardCorrupt) ∧
       (∀ dash doc, gd orgId dashboardUid = .ok dash → dash.data = some doc →
          (∀ p ∈ doc.panels, p.id ≠ panelId) →
          checkDashboardAndPanel gd orgId dashboardUid panelId =
            some .dashboardPanelNotFound) ∧
       (∀ dash doc, gd orgId dashboardUid = .ok dash → dash.data = some doc →
          (∃ p ∈ doc.panels, p.id = panelId) →
          checkDashboardAndPanel gd orgId dashboardUid panelId = none))) := by
  constructor
  · intro h
    constructor
    · rw [checkDashboardAndPanel, if_pos h]
    · rw [checkDashboardAndPanel, if_pos h, checkDashboardAndPanel, if_pos h]
  · intro hne hpos
    have hcond : ¬(dashboardUid = "" ∨ panelId ≤ 0) := by
      push_neg
      exact ⟨hne, by omega⟩
    refine ⟨?_, ?_, ?_, ?_⟩
    · intro hgd
      rw [checkDashboardAndPanel, if_neg hcond, hgd]
    · intro dash hgd hdata
      rw [checkDashboardAndPanel, if_neg hcond, hgd]
      simp [hdata]
    · intro dash doc hgd hdata habs
      rw [checkDashboardAndPanel, if_neg hcond, hgd]
      have hany : doc.panels.any (fun p => p.id == panelId) = false := by
        rw [List.any_eq_false]
        intro p hp hbeq
        exact habs p hp (by simpa using hbeq)
      simp [hdata, hany]
    · intro dash doc hgd hdata hex
      rw [checkDashboardAndPanel, if_neg hcond, hgd]
      have hany : doc.panels.any (fun p => p.id == panelId) = true := by
        rw [List.any_eq_true]
        obtain ⟨p, hp, hid⟩ := hex
        exact ⟨p, hp, by simp [hid]⟩
      simp [hdata, hany]

/-- Concrete dashboard store: dashboard "1" in any org carries a document
with a single panel of id 2. -/
def wGetDashboard : Int → String → Except DashboardError Dashboard :=
  fun _ u =>
    if u = "1" then .ok { uid := "1", orgId := 1, data := some { panels := [{ id := 2 }] } }
    else .error .dashboardNotFound

/-- Concrete dashboard store whose dashboard row carries no document. -/
def wGetDashboardNil : Int → String → Except DashboardError Dashboard :=
  fun _ _ => .ok { uid := "1", orgId := 1, data := none }

/-- Witness for C3: concrete runs of every branch of the validator. -/
theorem checkDashboardAndPanel_policy_witness :
    checkDashboardAndPanel wGetDashboard 1 "" 2 =
      some .dashboardOrPanelIdentifierNotSet ∧
    checkDashboardAndPanel wGetDashboard 1 "" 2 =
      checkDashboardAndPanel wGetDashboardNil 1 "" 2 ∧
    checkDashboardAndPanel wGetDashboard 1 "2" 2 = some .dashboardNotFound ∧
    checkDashboardAndPanel wGetDashboardNil 1 "1" 2 = some .dashboardCorrupt ∧
    checkDashboardAndPanel wGetDashboard 1 "1" 3 = some .dashboardPanelNotFound ∧
    checkDashboardAndPanel wGetDashboard 1 "1" 2 = none := by
  refine ⟨?_, ?_, ?_, ?_, ?_, ?_⟩
  · exact ((checkDashboardAndPanel_policy wGetDashboard wGetDashboardNil 1 "" 2).1
      (Or.inl rfl)).1
  · exact ((checkDashboardAndPanel_policy wGetDashboard wGetDashboardNil 1 "" 2).1
      (Or.inl rfl)).2
  · exact ((checkDashboardAndPanel_policy wGetDashboard wGetDashboardNil 1 "2" 2).2
      (by decide) (by decide)).1 rfl
  · exact ((checkDashboardAndPanel_policy wGetDashboardNil wGetDashboard 1 "1" 2).2
      (by decide) (by decide)).2.1 { uid := "1", orgId := 1, data := none } rfl rfl
  · exact ((checkDashboardAndPanel_policy wGetDashboard wGetDashboardNil 1 "1" 3).2
      (by decide) (by decide)).2.2.1 { uid := "1", orgId := 1, data := some { panels := [{ id := 2 }] } }
      { panels := [{ id := 2 }] } rfl rfl (by decide)
  · exact ((checkDashboardAndPanel_policy wGetDashboard wGetDashboardNil 1 "1" 2).2
      (by decide) (by decide)).2.2.2 { uid := "1", orgId := 1, data := some { panels := [{ id := 2 }] } }
      { panels := [{ id := 2 }] } rfl rfl ⟨{ id := 2 }, by decide, rfl⟩

/-- C7: starring then unstarring the same `(user, uid)` on an existing,
not-yet-starred query succeeds, ends with a DTO with `Starred = false`,
and leaves no star row for `(user, uid)`; and unstarring with no existing
star row fails with `StarredQueryNotFound`. -/
theorem star_unstar_roundtrip (db : Db) (u : SignedInUser) (uid : String)
    (qh : QueryHistory) (hfind : findQueryRow db u uid = some qh)
    (hno : ∀ s ∈ db.stars, ¬(s.userID = u.userId ∧ s.queryUID = uid)) :
    (∃ db1 db2 dto1 dto2,
      starQuery db u uid = (db1, .ok dto1) ∧
      unstarQuery db1 u uid = (db2, .ok dto2) ∧
      dto2.starred = false ∧
      ∀ s ∈ db2.stars, ¬(s.userID = u.userId ∧ s.queryUID = uid)) ∧
    unstarQuery db u uid = (db, .error .starredQueryNotFound) := by
  have hse := starExists_eq_false db u.userId uid hno
  have h0 := starRowCount_eq_zero db u.userId uid hno
  constructor
  · refine ⟨{ db with stars := db.stars ++ [{ userID := u.userId, queryUID := uid }] },
      ⟨db.queryHistory,
        deleteStarRows (db.stars ++ [{ userID := u.userId, queryUID := uid }]) u.userId uid⟩,
      toDTO qh true, toDTO qh false, ?_, ?_, rfl, ?_⟩
    · simp [starQuery, hfind, hse]
    · have hfind1 : findQueryRow
          { db with stars := db.stars ++ [{ userID := u.userId, queryUID := uid }] } u uid =
          some qh := hfind
      have hcount : starRowCount
          { db with stars := db.stars ++ [{ userID := u.userId, queryUID := uid }] }
          u.userId uid = 1 := by
        rw [starRowCount] at h0 ⊢
        simp [List.countP_append, h0, List.countP_cons]
      simp [unstarQuery, hfind1, hcount]
    · intro s hs hcontra
      obtain ⟨e1, e2⟩ := hcontra
      have hs' := hs
      rw [deleteStarRows, List.mem_filter] at hs'
      simp [e1, e2] at hs'
  · simp [unstarQuery, hfind, h0]

/-- Witness for C7: a concrete round trip on `wDb`. -/
theorem star_unstar_roundtrip_witness :
    (∃ db1 db2 dto1 dto2,
      starQuery wDb wUser "q1" = (db1, .ok dto1) ∧
      unstarQuery db1 wUser "q1" = (db2, .ok dto2) ∧
      dto2.starred = false ∧
      ∀ s ∈ db2.stars, ¬(s.userID = wUser.userId ∧ s.queryUID = "q1")) ∧
    unstarQuery wDb wUser "q1" = (wDb, .error .starredQueryNotFound) :=
  star_unstar_roundtrip wDb wUser "q1" wQuery (by decide) (by decide)

/-- C8: `patchQueryComment` fails with `QueryNotFound` when no row is in
scope; otherwise it overwrites only the `Comment` field of that row (all
other fields and all other rows unchanged, stars untouched) and returns a
DTO with the new comment and `Starred` recomputed from the star table. -/
theorem patchQueryComment_behavior (db : Db) (u : SignedInUser) (uid : String)
    (c : String) :
    ((∀ r ∈ db.queryHistory,
        ¬(r.orgID = u.orgId ∧ r.createdBy = u.userId ∧ r.uid = uid)) →
      patchQueryComment db u uid c = (db, .error .queryNotFound)) ∧
    (∀ qh, findQueryRow db u uid = some qh →
      ∃ db2 dto, patchQueryComment db u uid c = (db2, .ok dto) ∧
        dto.comment = c ∧ dto.uid = qh.uid ∧ dto.datasourceUID = qh.datasourceUID ∧
        dto.createdBy = qh.createdBy ∧ dto.createdAt = qh.createdAt ∧
        dto.queries = qh.queries ∧ dto.starred = starExists db u.userId uid ∧
        db2.stars = db.stars ∧
        db2.queryHistory.length = db.queryHistory.length ∧
        { qh with comment := c } ∈ db2.queryHistory ∧
        (∀ r ∈ db.queryHistory, r.id ≠ qh.id → r ∈ db2.queryHistory)) := by
  constructor
  · intro h
    simp [patchQueryComment, findQueryRow_eq_none db u uid h]
  · intro qh hfind
    refine ⟨{ db with queryHistory := db.queryHistory.map fun r =>
        if r.id == qh.id then { qh with comment := c } else r },
      toDTO { qh with comment := c } (starExists db u.userId uid),
      ?_, rfl, rfl, rfl, rfl, rfl, rfl, rfl, rfl, ?_, ?_, ?_⟩
    · simp [patchQueryComment, hfind]
    · simp
    · have hqh : qh ∈ db.queryHistory := List.mem_of_find?_eq_some hfind
      have := List.mem_map_of_mem
        (fun r => if r.id == qh.id then { qh with comment := c } else r) hqh
      simpa using this
    · intro r hr hne
      have := List.mem_map_of_mem
        (fun r => if r.id == qh.id then { qh with comment := c } else r) hr
      have hb : (r.id == qh.id) = false := by simpa using hne
      simpa [hb] using this

/-- Witness for C8: a concrete comment patch on `wDbStarred`. -/
theorem patchQueryComment_behavior_witness :
    ∃ db2 dto, patchQueryComment wDbStarred wUser "q1" "hello" = (db2, .ok dto) ∧
      dto.comment = "hello" ∧ dto.uid = wQuery.uid ∧
      dto.datasourceUID = wQuery.datasourceUID ∧
      dto.createdBy = wQuery.createdBy ∧ dto.createdAt = wQuery.createdAt ∧
      dto.queries = wQuery.queries ∧
      dto.starred = starExists wDbStarred wUser.userId "q1" ∧
      db2.stars = wDbStarred.stars ∧
      db2.queryHistory.length = wDbStarred.queryHistory.length ∧
      { wQuery with comment := "hello" } ∈ db2.queryHistory ∧
      (∀ r ∈ wDbStarred.queryHistory, r.id ≠ wQuery.id → r ∈ db2.queryHistory) :=
  (patchQueryComment_behavior wDbStarred wUser "q1" "hello").2 wQuery (by decide)

/-- C1: in `deleteQuery` the outcome of the best-effort star delete never
changes the result (its failure is only logged); when no query row is in
scope the transaction fails with `QueryNotFound` and both tables are left
unchanged (the original `Db` is returned); on success the query rows in
scope are gone and no star row of the caller for the uid remains, and no
new rows appear in either table. -/
theorem deleteQuery_behavior :
    (∀ sd1 sd2 qd, deleteQueryCore ⟨sd1, qd⟩ = deleteQueryCore ⟨sd2, qd⟩) ∧
    ∀ (db : Db) (u : SignedInUser) (uid : String),
      ((∀ r ∈ db.queryHistory,
          ¬(r.orgID = u.orgId ∧ r.createdBy = u.userId ∧ r.uid = uid)) →
        deleteQuery db u uid = (db, .error .queryNotFound)) ∧
      ((∃ r ∈ db.queryHistory,
          r.orgID = u.orgId ∧ r.createdBy = u.userId ∧ r.uid = uid) →
        ∃ db2 n, deleteQuery db u uid = (db2, .ok n) ∧ n ≠ 0 ∧
          (∀ s ∈ db2.stars, ¬(s.userID = u.userId ∧ s.queryUID = uid)) ∧
          (∀ r ∈ db2.queryHistory,
            ¬(r.orgID = u.orgId ∧ r.createdBy = u.userId ∧ r.uid = uid)) ∧
          (∀ s ∈ db2.stars, s ∈ db.stars) ∧
          (∀ r ∈ db2.queryHistory, r ∈ db.queryHistory)) := by
  refine ⟨fun _ _ _ => rfl, fun db u uid => ⟨?_, ?_⟩⟩
  · intro h
    have hz : queryRowCount db u uid = 0 := by
      rw [queryRowCount, List.countP_eq_zero]
      intro r hr hp
      exact h r hr ((rowScope_eq_true u uid r).mp hp)
    simp [deleteQuery, hz]
  · intro hex
    obtain ⟨r, hr, h1, h2, h3⟩ := hex
    have hpos : 0 < queryRowCount db u uid := by
      rw [queryRowCount, List.countP_pos_iff]
      exact ⟨r, hr, by simp [h1, h2, h3]⟩
    have hne : queryRowCount db u uid ≠ 0 := Nat.pos_iff_ne_zero.mp hpos
    refine ⟨⟨db.queryHistory.filter fun r2 =>
        !(r2.orgID == u.orgId && r2.createdBy == u.userId && r2.uid == uid),
        deleteStarRows db.stars u.userId uid⟩,
      queryRowCount db u uid, ?_, hne, ?_, ?_, ?_, ?_⟩
    · simp [deleteQuery, hne]
    · intro s hs hcontra
      obtain ⟨e1, e2⟩ := hcontra
      rw [deleteStarRows, List.mem_filter] at hs
      simp [e1, e2] at hs
    · intro r2 hr2 hcontra
      obtain ⟨e1, e2, e3⟩ := hcontra
      rw [List.mem_filter] at hr2
      simp [e1, e2, e3] at hr2
    · intro s hs
      exact List.mem_of_mem_filter hs
    · intro r2 hr2
      exact List.mem_of_mem_filter hr2

/-- Witness for C1: a concrete delete of a starred query on `wDbStarred`,
and a concrete not-found delete. -/
theorem deleteQuery_behavior_witness :
    deleteQuery wDb wUser "zz" = (wDb, .error .queryNotFound) ∧
    ∃ db2 n, deleteQuery wDbStarred wUser "q1" = (db2, .ok n) ∧ n ≠ 0 ∧
      (∀ s ∈ db2.stars, ¬(s.userID = wUser.userId ∧ s.queryUID = "q1")) ∧
      (∀ r ∈ db2.queryHistory,
        ¬(r.orgID = wUser.orgId ∧ r.createdBy = wUser.userId ∧ r.uid = "q1")) ∧
      (∀ s ∈ db2.stars, s ∈ wDbStarred.stars) ∧
      (∀ r ∈ db2.queryHistory, r ∈ wDbStarred.queryHistory) :=
  ⟨(deleteQuery_behavior.2 wDb wUser "zz").1 (by decide),
   (deleteQuery_behavior.2 wDbStarred wUser "q1").2
     ⟨wQuery, by decide, by decide, by decide, by decide⟩⟩

/-- A helper: every row of the join output originates in a query row that
passes the `WHERE` clause, paired either with a star row matching its uid
(`starred` true) or, in the left-join case, with no matching star row
(`starred` false). -/
theorem mem_joinedRows (like : String → String → Bool) (db : Db)
    (u : SignedInUser) (q : SearchInQueryHistoryQuery) (x : QueryHistoryDTO)
    (hx : x ∈ joinedRows like db u q) :
    ∃ r ∈ db.queryHistory, rowMatches like u q r = true ∧
      ((∃ s ∈ db.stars, s.queryUID = r.uid ∧ x = toDTO r true) ∨
       (q.onlyStarred = false ∧ (∀ s ∈ db.stars, s.queryUID ≠ r.uid) ∧
         x = toDTO r false)) := by
  rw [joinedRows] at hx
  by_cases hos : q.onlyStarred
  · rw [if_pos hos] at hx
    obtain ⟨r, hrf, hxm⟩ := List.mem_flatMap.mp hx
    obtain ⟨hr, hm⟩ := List.mem_filter.mp hrf
    obtain ⟨s, hsf, hxe⟩ := List.mem_map.mp hxm
    obtain ⟨hs, hsu⟩ := List.mem_filter.mp hsf
    exact ⟨r, hr, hm, Or.inl ⟨s, hs, by simpa using hsu, hxe.symm⟩⟩
  · rw [if_neg hos] at hx
    obtain ⟨r, hrf, hxm⟩ := List.mem_flatMap.mp hx
    obtain ⟨hr, hm⟩ := List.mem_filter.mp hrf
    by_cases hemp : (starsFor db r.uid).isEmpty
    · rw [if_pos hemp] at hxm
      have hnil : starsFor db r.uid = [] := List.isEmpty_iff.mp hemp
      have hall : ∀ s ∈ db.stars, s.queryUID ≠ r.uid := by
        intro s hs he
        have : s ∈ starsFor db r.uid := List.mem_filter.mpr ⟨hs, by simp [he]⟩
        simp [hnil] at this
      have hxe : x = toDTO r false := by simpa using hxm
      exact ⟨r, hr, hm, Or.inr ⟨by simpa using hos, hall, hxe⟩⟩
    · rw [if_neg hemp] at hxm
      obtain ⟨s, hsf, hxe⟩ := List.mem_map.mp hxm
      obtain ⟨hs, hsu⟩ := List.mem_filter.mp hsf
      exact ⟨r, hr, hm, Or.inl ⟨s, hs, by simpa using hsu, hxe.symm⟩⟩

/-- A helper: in inner-join mode, a filtered query row with any matching
star row (by any user) produces an output row. -/
theorem toDTO_mem_joinedRows_inner (like : String → String → Bool) (db : Db)
    (u : SignedInUser) (q : SearchInQueryHistoryQuery) (r : QueryHistory)
    (hos : q.onlyStarred = true) (hr : r ∈ db.queryHistory)
    (hm : rowMatches like u q r = true) (s : QueryHistoryStar)
    (hs : s ∈ db.stars) (huid : s.queryUID = r.uid) :
    toDTO r true ∈ joinedRows like db u q := by
  rw [joinedRows, if_pos hos]
  refine List.mem_flatMap.mpr ⟨r, List.mem_filter.mpr ⟨hr, hm⟩, ?_⟩
  exact List.mem_map.mpr ⟨s, List.mem_filter.mpr ⟨hs, by simp [huid]⟩, rfl⟩

/-- A helper: for every join-output row, `starred` is true exactly when
some star row (any user's) carries its uid. -/
theorem starred_iff_of_mem_joinedRows (like : String → String → Bool) (db : Db)
    (u : SignedInUser) (q : SearchInQueryHistoryQuery) (x : QueryHistoryDTO)
    (hx : x ∈ joinedRows like db u q) :
    (x.starred = true ↔ ∃ s ∈ db.stars, s.queryUID = x.uid) := by
  obtain ⟨r, _, _, hcase⟩ := mem_joinedRows like db u q x hx
  rcases hcase with ⟨s, hs, hsu, hxe⟩ | ⟨_, hall, hxe⟩
  · subst hxe
    exact ⟨fun _ => ⟨s, hs, hsu⟩, fun _ => rfl⟩
  · subst hxe
    constructor
    · intro h
      cases h
    · rintro ⟨s, hs, hsu⟩
      exact absurd hsu (hall s hs)

/-- A helper: `sortedResult` is a permutation of the join output. -/
theorem sortedResult_perm (like : String → String → Bool) (db : Db)
    (u : SignedInUser) (q : SearchInQueryHistoryQuery) :
    (sortedResult like db u q).Perm (joinedRows like db u q) := by
  rw [sortedResult, sortRows]
  by_cases h : (if q.sort = "" then "time-desc" else q.sort) = "time-asc"
  · rw [if_pos h]
    exact List.perm_insertionSort createdAtAsc _
  · rw [if_neg h]
    exact List.perm_insertionSort createdAtDesc _

/-- A helper: with a non-empty datasource set, `searchQueries` succeeds
with the `LIMIT`/`OFFSET` slice of the ordered result. -/
theorem searchQueries_eq_ok (like : String → String → Bool) (db : Db)
    (u : SignedInUser) (q : SearchInQueryHistoryQuery)
    (hds : q.datasourceUIDs ≠ []) :
    searchQueries like db u q = .ok (((sortedResult like db u q).drop
      ((if q.limit ≤ 0 then 100 else q.limit) *
        ((if q.page ≤ 0 then 1 else q.page) - 1)).toNat).take
      (if q.limit ≤ 0 then 100 else q.limit).toNat) := by
  have hni : ¬(q.datasourceUIDs.isEmpty = true) := by
    simpa [List.isEmpty_iff] using hds
  rw [searchQueries, if_neg hni]

/-- A helper: a member of a successful `searchQueries` result is a member
of the join output. -/
theorem mem_joined_of_searchQueries_ok (like : String → String → Bool)
    (db : Db) (u : SignedInUser) (q : SearchInQueryHistoryQuery)
    (l : List QueryHistoryDTO) (hl : searchQueries like db u q = .ok l)
    (x : QueryHistoryDTO) (hx : x ∈ l) : x ∈ joinedRows like db u q := by
  rcases eq_or_ne q.datasourceUIDs [] with hds | hds
  · rw [searchQueries] at hl
    rw [if_pos (by simp [hds])] at hl
    cases hl
  · rw [searchQueries_eq_ok like db u q hds] at hl
    injection hl with hl
    subst hl
    have hx1 : x ∈ sortedResult like db u q :=
      ((List.take_sublist _ _).trans (List.drop_sublist _ _)).subset hx
    exact (sortedResult_perm like db u q).mem_iff.mp hx1

/-- C4: `searchQueries` with an empty `DatasourceUIDs` set fails with
`InvalidArgument` without touching the store (the result does not depend
on the `Db`); with a non-empty set it never fails for that reason. -/
theorem searchQueries_requires_datasourceUIDs (like : String → String → Bool)
    (db db2 : Db) (u : SignedInUser) (q : SearchInQueryHistoryQuery) :
    (q.datasourceUIDs = [] →
      searchQueries like db u q = .error .invalidArgument ∧
      searchQueries like db u q = searchQueries like db2 u q) ∧
    (q.datasourceUIDs ≠ [] →
      searchQueries like db u q ≠ .error .invalidArgument) := by
  constructor
  · intro h
    constructor
    · rw [searchQueries, if_pos (by simp [h])]
    · rw [searchQueries, if_pos (by simp [h]), searchQueries, if_pos (by simp [h])]
  · intro hds h
    rw [searchQueries_eq_ok like db u q hds] at h
    cases h

/-- Witness for C4: the empty and non-empty datasource sets, concretely. -/
theorem searchQueries_requires_datasourceUIDs_witness :
    searchQueries likeContains wDb wUser { wSearch with datasourceUIDs := [] } =
      .error .invalidArgument ∧
    searchQueries likeContains wDb wUser wSearch ≠ .error .invalidArgument :=
  ⟨((searchQueries_requires_datasourceUIDs likeContains wDb wDbStarred wUser
      { wSearch with datasourceUIDs := [] }).1 rfl).1,
   (searchQueries_requires_datasourceUIDs likeContains wDb wDbStarred wUser
      wSearch).2 (by decide)⟩

/-- C5: with `OnlyStarred = true` every returned DTO has `Starred = true`
(inner join, `starred` forced to the true literal); with
`OnlyStarred = false` (left join) a returned DTO's `Starred` is true
exactly when a star row matching the join condition exists. -/
theorem searchQueries_onlyStarred (like : String → String → Bool) (db : Db)
    (u : SignedInUser) (q : SearchInQueryHistoryQuery) :
    (q.onlyStarred = true → ∀ l, searchQueries like db u q = .ok l →
      ∀ dto ∈ l, dto.starred = true) ∧
    (q.onlyStarred = false → ∀ l, searchQueries like db u q = .ok l →
      ∀ dto ∈ l, (dto.starred = true ↔ ∃ s ∈ db.stars, s.queryUID = dto.uid)) := by
  constructor
  · intro hos l hl dto hdto
    have hj := mem_joined_of_searchQueries_ok like db u q l hl dto hdto
    obtain ⟨r, _, _, hcase⟩ := mem_joinedRows like db u q dto hj
    rcases hcase with ⟨_, _, _, hxe⟩ | ⟨hfalse, _, _⟩
    · subst hxe
      rfl
    · rw [hos] at hfalse
      cases hfalse
  · intro _ l hl dto hdto
    exact starred_iff_of_mem_joinedRows like db u q dto
      (mem_joined_of_searchQueries_ok like db u q l hl dto hdto)

/-- Witness for C5: concrete searches in both join modes. -/
theorem searchQueries_onlyStarred_witness :
    (∀ dto ∈ [toDTO wQuery true], dto.starred = true) ∧
    (∀ dto ∈ [toDTO wQuery true],
      (dto.starred = true ↔ ∃ s ∈ wDbOtherStar.stars, s.queryUID = dto.uid)) :=
  ⟨(searchQueries_onlyStarred likeContains wDbOtherStar wUser wSearch).1 rfl
      [toDTO wQuery true] rfl,
   (searchQueries_onlyStarred likeContains wDbOtherStar wUser
      { wSearch with onlyStarred := false }).2 rfl
      [toDTO wQuery true] rfl⟩

/-- A helper: with sort `time-asc` the ordered result is ascending. -/
theorem sortedResult_sorted_asc (like : String → String → Bool) (db : Db)
    (u : SignedInUser) (q : SearchInQueryHistoryQuery)
    (h : (if q.sort = "" then "time-desc" else q.sort) = "time-asc") :
    (sortedResult like db u q).Pairwise createdAtAsc := by
  rw [sortedResult, sortRows, if_pos h]
  exact List.sorted_insertionSort createdAtAsc _

/-- A helper: with any other sort the ordered result is descending. -/
theorem sortedResult_sorted_desc (like : String → String → Bool) (db : Db)
    (u : SignedInUser) (q : SearchInQueryHistoryQuery)
    (h : ¬(if q.sort = "" then "time-desc" else q.sort) = "time-asc") :
    (sortedResult like db u q).Pairwise createdAtDesc := by
  rw [sortedResult, sortRows, if_neg h]
  exact List.sorted_insertionSort createdAtDesc _

/-- A helper: `searchQueries` at an explicit page `p ≥ 1` returns the
slice at offset `Limit * (p - 1)`. -/
theorem searchQueries_page_slice (like : String → String → Bool) (db : Db)
    (u : SignedInUser) (q : SearchInQueryHistoryQuery) (p : Int)
    (hds : q.datasourceUIDs ≠ []) (hp : 1 ≤ p) :
    searchQueries like db u { q with page := p } =
      .ok (((sortedResult like db u q).drop
        ((if q.limit ≤ 0 then 100 else q.limit) * (p - 1)).toNat).take
        (if q.limit ≤ 0 then 100 else q.limit).toNat) := by
  have hni : ¬(({ q with page := p } :
      SearchInQueryHistoryQuery).datasourceUIDs.isEmpty = true) := by
    simpa [List.isEmpty_iff] using hds
  rw [searchQueries, if_neg hni]
  simp only []
  rw [if_neg (show ¬ p ≤ 0 by omega)]
  rfl

/-- C6: with a non-empty datasource set `searchQueries` never errors; its
result is the `LIMIT Limit OFFSET Limit * (Page - 1)` slice of the joined
rows ordered by `created_at` (ascending for `time-asc`, descending
otherwise, `time-desc` being the default), has at most `Limit` rows
(default 100), consists only of rows scoped to the caller's org and user
and the requested datasources, and distinct pages of the same search
never overlap. -/
theorem searchQueries_ordering_pagination (like : String → String → Bool)
    (db : Db) (u : SignedInUser) (q : SearchInQueryHistoryQuery)
    (hds : q.datasourceUIDs ≠ []) :
    ∃ l, searchQueries like db u q = .ok l ∧
      l = ((sortedResult like db u q).drop
            ((if q.limit ≤ 0 then 100 else q.limit) *
              ((if q.page ≤ 0 then 1 else q.page) - 1)).toNat).take
            (if q.limit ≤ 0 then 100 else q.limit).toNat ∧
      ((if q.sort = "" then "time-desc" else q.sort) = "time-asc" →
        l.Pairwise createdAtAsc) ∧
      ((if q.sort = "" then "time-desc" else q.sort) ≠ "time-asc" →
        l.Pairwise createdAtDesc) ∧
      l.length ≤ (if q.limit ≤ 0 then 100 else q.limit).toNat ∧
      (∀ dto ∈ l, ∃ r ∈ db.queryHistory,
        r.orgID = u.orgId ∧ r.createdBy = u.userId ∧
        r.datasourceUID ∈ q.datasourceUIDs ∧ dto.uid = r.uid ∧
        dto.createdBy = r.createdBy ∧ dto.datasourceUID = r.datasourceUID ∧
        dto.createdAt = r.createdAt) ∧
      (∀ p1 p2 l1 l2, 1 ≤ p1 → p1 < p2 → (sortedResult like db u q).Nodup →
        searchQueries like db u { q with page := p1 } = .ok l1 →
        searchQueries like db u { q with page := p2 } = .ok l2 →
        l1.Disjoint l2) := by
  have hsub : ((((sortedResult like db u q).drop
      ((if q.limit ≤ 0 then 100 else q.limit) *
        ((if q.page ≤ 0 then 1 else q.page) - 1)).toNat).take
      (if q.limit ≤ 0 then 100 else q.limit).toNat)).Sublist
      (sortedResult like db u q) :=
    (List.take_sublist _ _).trans (List.drop_sublist _ _)
  refine ⟨_, searchQueries_eq_ok like db u q hds, rfl, ?_, ?_, ?_, ?_, ?_⟩
  · intro h
    exact List.Pairwise.sublist hsub (sortedResult_sorted_asc like db u q h)
  · intro h
    exact List.Pairwise.sublist hsub (sortedResult_sorted_desc like db u q h)
  · rw [List.length_take]
    exact inf_le_left
  · intro dto hdto
    have hj : dto ∈ joinedRows like db u q :=
      (sortedResult_perm like db u q).mem_iff.mp (hsub.subset hdto)
    obtain ⟨r, hr, hm, hcase⟩ := mem_joinedRows like db u q dto hj
    rw [rowMatches] at hm
    simp only [Bool.and_eq_true, beq_iff_eq] at hm
    obtain ⟨⟨⟨h1, h2⟩, _⟩, h4⟩ := hm
    have hmem : r.datasourceUID ∈ q.datasourceUIDs := by simpa using h4
    rcases hcase with ⟨_, _, _, hxe⟩ | ⟨_, _, hxe⟩ <;> subst hxe <;>
      exact ⟨r, hr, h1, h2, hmem, rfl, rfl, rfl, rfl⟩
  · intro p1 p2 l1 l2 hp1 hlt hnd h1 h2
    rw [searchQueries_page_slice like db u q p1 hds hp1] at h1
    rw [searchQueries_page_slice like db u q p2 hds (by omega)] at h2
    injection h1 with h1
    injection h2 with h2
    subst h1
    subst h2
    have hL : (1 : Int) ≤ (if q.limit ≤ 0 then 100 else q.limit) := by
      split <;> omega
    have hmul : (if q.limit ≤ 0 then 100 else q.limit) * (p1 - 1) +
        (if q.limit ≤ 0 then 100 else q.limit) ≤
        (if q.limit ≤ 0 then 100 else q.limit) * (p2 - 1) := by
      nlinarith
    have hpos1 : (0 : Int) ≤ (if q.limit ≤ 0 then 100 else q.limit) * (p1 - 1) :=
      mul_nonneg (by omega) (by omega)
    have hpos2 : (0 : Int) ≤ (if q.limit ≤ 0 then 100 else q.limit) * (p2 - 1) :=
      mul_nonneg (by omega) (by omega)
    have harith : ((if q.limit ≤ 0 then 100 else q.limit) * (p1 - 1)).toNat +
        ((if q.limit ≤ 0 then 100 else q.limit) : Int).toNat ≤
        ((if q.limit ≤ 0 then 100 else q.limit) * (p2 - 1)).toNat := by
      omega
    intro x hx1 hx2
    rw [List.take_drop] at hx1
    have h1' : x ∈ (sortedResult like db u q).take
        (((if q.limit ≤ 0 then 100 else q.limit) * (p1 - 1)).toNat +
          ((if q.limit ≤ 0 then 100 else q.limit) : Int).toNat) :=
      List.drop_subset _ _ hx1
    have h2' : x ∈ (sortedResult like db u q).drop
        (((if q.limit ≤ 0 then 100 else q.limit) * (p2 - 1)).toNat) :=
      List.take_subset _ _ hx2
    exact List.disjoint_take_drop hnd harith h1' h2'

/-- Witness for C6: the concrete search on `wDb`. -/
theorem searchQueries_ordering_pagination_witness :
    ∃ l, searchQueries likeContains wDb wUser wSearch = .ok l ∧
      l = ((sortedResult likeContains wDb wUser wSearch).drop
            ((if wSearch.limit ≤ 0 then 100 else wSearch.limit) *
              ((if wSearch.page ≤ 0 then 1 else wSearch.page) - 1)).toNat).take
            (if wSearch.limit ≤ 0 then 100 else wSearch.limit).toNat ∧
      ((if wSearch.sort = "" then "time-desc" else wSearch.sort) = "time-asc" →
        l.Pairwise createdAtAsc) ∧
      ((if wSearch.sort = "" then "time-desc" else wSearch.sort) ≠ "time-asc" →
        l.Pairwise createdAtDesc) ∧
      l.length ≤ (if wSearch.limit ≤ 0 then 100 else wSearch.limit).toNat ∧
      (∀ dto ∈ l, ∃ r ∈ wDb.queryHistory,
        r.orgID = wUser.orgId ∧ r.createdBy = wUser.userId ∧
        r.datasourceUID ∈ wSearch.datasourceUIDs ∧ dto.uid = r.uid ∧
        dto.createdBy = r.createdBy ∧ dto.datasourceUID = r.datasourceUID ∧
        dto.createdAt = r.createdAt) ∧
      (∀ p1 p2 l1 l2, 1 ≤ p1 → p1 < p2 →
        (sortedResult likeContains wDb wUser wSearch).Nodup →
        searchQueries likeContains wDb wUser { wSearch with page := p1 } = .ok l1 →
        searchQueries likeContains wDb wUser { wSearch with page := p2 } = .ok l2 →
        l1.Disjoint l2) :=
  searchQueries_ordering_pagination likeContains wDb wUser wSearch (by decide)

/-- C10: the star join matches on `query_uid` only, never on the caller's
user id: a returned DTO's `Starred` is true exactly when some star row —
by any user — carries its uid; and in `OnlyStarred` mode a filtered query
row starred by any user is returned (shown within the first page). -/
theorem searchQueries_star_join_uid_only (like : String → String → Bool)
    (db : Db) (u : SignedInUser) (q : SearchInQueryHistoryQuery) :
    (∀ l, searchQueries like db u q = .ok l → ∀ dto ∈ l,
      (dto.starred = true ↔ ∃ s ∈ db.stars, s.queryUID = dto.uid)) ∧
    (q.onlyStarred = true → q.page ≤ 1 → q.datasourceUIDs ≠ [] →
      (joinedRows like db u q).length ≤
        ((if q.limit ≤ 0 then 100 else q.limit) : Int).toNat →
      ∀ r ∈ db.queryHistory, rowMatches like u q r = true →
      ∀ s ∈ db.stars, s.queryUID = r.uid →
      ∃ l, searchQueries like db u q = .ok l ∧
        ∃ dto ∈ l, dto.uid = r.uid ∧ dto.starred = true) := by
  constructor
  · intro l hl dto hdto
    exact starred_iff_of_mem_joinedRows like db u q dto
      (mem_joined_of_searchQueries_ok like db u q l hl dto hdto)
  · intro hos hpage hds hlen r hr hm s hs huid
    have hP : (if q.page ≤ 0 then (1 : Int) else q.page) = 1 := by
      split <;> omega
    have hoff : ((if q.limit ≤ 0 then (100 : Int) else q.limit) *
        ((if q.page ≤ 0 then (1 : Int) else q.page) - 1)).toNat = 0 := by
      rw [hP]
      simp
    refine ⟨_, searchQueries_eq_ok like db u q hds, ?_⟩
    rw [hoff, List.drop_zero]
    have htake : (sortedResult like db u q).take
        ((if q.limit ≤ 0 then (100 : Int) else q.limit)).toNat =
        sortedResult like db u q :=
      List.take_of_length_le (by
        rw [(sortedResult_perm like db u q).length_eq]
        exact hlen)
    rw [htake]
    exact ⟨toDTO r true,
      (sortedResult_perm like db u q).mem_iff.mpr
        (toDTO_mem_joinedRows_inner like db u q r hos hr hm s hs huid),
      rfl, rfl⟩

/-- Witness for C10: on `wDbOtherStar` the star row belongs to user 8 but
the caller is user 7 — the row is still returned and marked starred. -/
theorem searchQueries_star_join_uid_only_witness :
    (∀ dto ∈ [toDTO wQuery true],
      (dto.starred = true ↔ ∃ s ∈ wDbOtherStar.stars, s.queryUID = dto.uid)) ∧
    ∃ l, searchQueries likeContains wDbOtherStar wUser wSearch = .ok l ∧
      ∃ dto ∈ l, dto.uid = wQuery.uid ∧ dto.starred = true :=
  ⟨(searchQueries_star_join_uid_only likeContains wDbOtherStar wUser wSearch).1
      [toDTO wQuery true] rfl,
   (searchQueries_star_join_uid_only likeContains wDbOtherStar wUser wSearch).2
      rfl (by decide) (by decide) (by decide) wQuery (by decide) rfl
      { userID := 8, queryUID := "q1" } (by decide) rfl⟩
